import Mathlib

/-!
Verification development for the global-notifier wrapper
(src/wrappers/src/global_notifier_cs.cpp) of the realm-dotnet repository.

The wrapper code is embedded shallowly:
* the polymorphic Callback object (lines 62-107) becomes a step function on
  its one piece of state, the m_did_download flag;
* the exported boundary functions become Lean functions over explicit data;
* parts of the repository that the wrapper calls but whose code is not at
  hand (the GlobalNotifier core, get_indexes_vector of marshalling.hpp,
  handle_errors of error_handling.hpp) are modelled from the spec, each such
  definition carrying a doc comment that starts with Modelled from the spec.
-/

/-! ## Lifecycle callback machine (Callback, lines 62-107) -/

/-- The two shapes of exception delivered to Callback::error (line 75):
a std::system_error carrying an error_code value and message, or any other
std::exception. -/
inductive ErrorKind
  | systemError (code : Int) (message : String)
  | otherException (what : String)
  deriving DecidableEq

/-- The events the GlobalNotifier core delivers to the Callback object that
are relevant to the lifecycle channel: download_complete (line 69) and
error (line 75). -/
inductive CoreEvent
  | downloadComplete
  | error (k : ErrorKind)
  deriving DecidableEq

/-- Observable effects of a Callback step: an invocation of the installed
s_start_callback lifecycle function pointer (code, optional message), or a
call to realm::util::terminate with the given reason string. -/
inductive Emission
  | start (code : Int) (message : Option String)
  | terminate (reason : String)
  deriving DecidableEq

/-- One step of the Callback object, embedded from lines 69-90.  State is
the m_did_download flag.  Returns (new flag, emissions, whether the process
was terminated).  download_complete sets the flag and emits code 0 with a
null message; error with the flag set terminates; a pre-download
system_error emits the error_code value and message; any other pre-download
exception terminates. -/
def callbackStep : Bool → CoreEvent → Bool × List Emission × Bool
  | _, .downloadComplete => (true, [.start 0 none], false)
  | true, .error _ => (true, [.terminate ("Unhandled GlobalNotifier runtime error")], true)
  | false, .error (.systemError c m) => (false, [.start c (some m)], false)
  | false, .error (.otherException _) =>
      (false, [.terminate ("Unhandled GlobalNotifier exception type")], true)

/-- Run the Callback over a sequence of core events, starting from the given
m_did_download flag.  realm::util::terminate does not return, so once a step
terminates, no later event is processed. -/
def runEvents : Bool → List CoreEvent → List Emission
  | _, [] => []
  | dd, e :: rest =>
    let s := callbackStep dd e
    if s.2.2 then s.2.1 else s.2.1 ++ runEvents s.1 rest

/-- True when the event list contains no downloadComplete event. -/
def noDownload : List CoreEvent → Bool
  | [] => true
  | .downloadComplete :: _ => false
  | .error _ :: rest => noDownload rest

/-- Modelled from the spec: the GlobalNotifier core (not under src/) obeys
the state machine of spec section 4.1 - download_complete fires at most
once, and the Errored state is terminal, so an error event is the last
event the core ever delivers. -/
def coreValid : List CoreEvent → Bool
  | [] => true
  | [.error _] => true
  | .downloadComplete :: rest => noDownload rest && coreValid rest
  | .error _ :: _ :: _ => false

/-- Whether an emission is an invocation of the lifecycle (start/error)
callback. -/
def isLifecycle : Emission → Bool
  | .start _ _ => true
  | .terminate _ => false

/-- Number of lifecycle-callback invocations in an emission list. -/
def lifecycleCount (es : List Emission) : Nat := es.countP isLifecycle

/-! ## Creation (realm_server_create_global_notifier, lines 121-145) -/

/-- The externally relevant actions performed by
realm_server_create_global_notifier on its success path. -/
inductive CreateAction
  | constructCallback
  | constructNotifier
  | startNotifier
  | returnHandle
  deriving DecidableEq

/-- Trace of realm_server_create_global_notifier (lines 140-143): build the
Callback object, build the GlobalNotifier with it, call start() on the
notifier, and return the new shared-pointer handle. -/
def realm_server_create_global_notifier_actions : List CreateAction :=
  [.constructCallback, .constructNotifier, .startNotifier, .returnHandle]

/-! ## Admission (Callback::realm_available, lines 92-95) -/

/-- Callback::realm_available embedded from lines 92-95: the first argument
(the physical path) is discarded - the C++ parameter is anonymous - and the
installed s_should_handle_callback predicate is applied to the virtual
path, its result returned unchanged. -/
def realm_available (shouldHandle : String → Bool) (pathOnDisk virtualPath : String) : Bool :=
  shouldHandle virtualPath

/-! ## Data model: snapshots, change sets, notifications -/

/-- A row of a collection: an identity key and a content value, the minimum
needed to express the three-way diff of spec section 4.2. -/
structure Row where
  key : Nat
  content : Nat
  deriving DecidableEq

/-- Modelled from the spec: a Snapshot (SharedRealm) is an immutable view of
a store - a physical on-disk path (config().path), a transaction version,
and named collections of rows. -/
structure Snapshot where
  onDiskPath : String
  version : Nat
  tables : List (String × List Row)
  deriving DecidableEq

/-- A per-collection change set as produced by the core: four sparse index
collections (IndexSet equivalents), kept here as raw position lists that may
be unordered and contain duplicates, exactly what flattening must clean up. -/
structure CollectionChangeSet where
  deletions : List Nat
  insertions : List Nat
  modifications : List Nat
  modifications_new : List Nat
  deriving DecidableEq

/-- Modelled from the spec: GlobalNotifier::ChangeNotification (core, not
under src/) - the logical realm_path, an optional previous snapshot (absent
on a store's first observed version), the always-present new snapshot, and
the lazily computed change-set cache. -/
structure ChangeNotification where
  realm_path : String
  old_realm : Option Snapshot
  new_realm : Snapshot
  changes_cache : Option (List (String × CollectionChangeSet))
  deriving DecidableEq

/-! ## Index flattening (get_indexes_vector uses, lines 179-189) -/

/-- Insert a position into a strictly ascending list, keeping it strictly
ascending and dropping the position if already present. -/
def insertPos (n : Nat) : List Nat → List Nat
  | [] => [n]
  | x :: xs =>
    if n < x then n :: x :: xs
    else if n = x then x :: xs
    else x :: insertPos n xs

/-- Modelled from the spec: get_indexes_vector (marshalling.hpp, not under
src/) flattens a sparse IndexDiff - a set of positions possibly listed with
duplicates - into an explicit strictly ascending index sequence. -/
def flattenIndexDiff (d : List Nat) : List Nat := d.foldr insertPos []

/-! ## Diff computation (spec section 4.2; core, not under src/) -/

/-- Find the row with the given identity key, if any. -/
def findByKey (rows : List Row) (k : Nat) : Option Row :=
  rows.find? (fun r => r.key == k)

/-- Modelled from the spec: section 4.2's three-way diff for one collection.
Row identities only in the previous snapshot are deletions (previous
coordinates); only in the current snapshot, insertions (current
coordinates); present in both with different content, modifications
recorded in both coordinate spaces. -/
def computeCollectionDiff (prev cur : List Row) : CollectionChangeSet where
  deletions := prev.enum.filterMap (fun p =>
    if (findByKey cur p.2.key).isNone then some p.1 else none)
  insertions := cur.enum.filterMap (fun p =>
    if (findByKey prev p.2.key).isNone then some p.1 else none)
  modifications := prev.enum.filterMap (fun p =>
    match findByKey cur p.2.key with
    | some r => if r.content ≠ p.2.content then some p.1 else none
    | none => none)
  modifications_new := cur.enum.filterMap (fun p =>
    match findByKey prev p.2.key with
    | some r => if r.content ≠ p.2.content then some p.1 else none
    | none => none)

/-- Collection names of an optional snapshot, in table order. -/
def tableNames : Option Snapshot → List String
  | none => []
  | some snap => snap.tables.map (fun t => t.1)

/-- Rows of the named collection in an optional snapshot (empty when the
snapshot or the collection is absent). -/
def tableRows (s : Option Snapshot) (name : String) : List Row :=
  match s with
  | none => []
  | some snap =>
    match snap.tables.find? (fun t => t.1 == name) with
    | some t => t.2
    | none => []

/-- Modelled from the spec: diff every collection present in either
snapshot (section 4.2); collections present in only one side come out as
insertions-only or deletions-only change sets. -/
def computeChanges (prev : Option Snapshot) (cur : Snapshot) :
    List (String × CollectionChangeSet) :=
  ((tableNames prev ++ tableNames (some cur)).dedup).map
    (fun n => (n, computeCollectionDiff (tableRows prev n) (tableRows (some cur) n)))

/-- Modelled from the spec: ChangeNotification::get_changes (core, not
under src/) computes the per-collection diffs lazily from the snapshot pair
and caches the result; the computation itself is side-effect-free. State
passing makes the cache explicit. -/
def get_changes (n : ChangeNotification) :
    List (String × CollectionChangeSet) × ChangeNotification :=
  match n.changes_cache with
  | some cs => (cs, n)
  | none =>
    let cs := computeChanges n.old_realm n.new_realm
    (cs, { n with changes_cache := some cs })

/-! ## Marshalling (MarshaledChangeNotification, lines 34-55 and 162-211) -/

/-- One entry of changesets_buf (lines 45-53): collection name plus the
four flattened index arrays. -/
structure MarshaledChangeset where
  class_name : String
  deletions : List Nat
  insertions : List Nat
  previous_modifications : List Nat
  current_modifications : List Nat
  deriving DecidableEq

/-- The MarshaledChangeNotification struct (lines 34-55).  The previous and
current snapshot references are nullable pointers, hence Option; previous
defaults to null (line 42). -/
structure MarshaledChangeNotification where
  path : String
  path_on_disk : String
  previous : Option Snapshot
  current : Option Snapshot
  changesets : List MarshaledChangeset
  deriving DecidableEq

/-- Marshalling of one changeset (lines 176-192): each of the four sparse
index collections is flattened with get_indexes_vector. -/
def marshalChangeset (c : String × CollectionChangeSet) : MarshaledChangeset where
  class_name := c.1
  deletions := flattenIndexDiff c.2.deletions
  insertions := flattenIndexDiff c.2.insertions
  previous_modifications := flattenIndexDiff c.2.modifications
  current_modifications := flattenIndexDiff c.2.modifications_new

/-- Filling of the MarshaledChangeNotification (lines 167-207): logical
path from the notification, on-disk path from the new snapshot's config,
previous set exactly when get_old_realm yields a snapshot (lines 199-201),
current always set (line 207). -/
def marshalNotification (change : ChangeNotification)
    (cs : List (String × CollectionChangeSet)) : MarshaledChangeNotification where
  path := change.realm_path
  path_on_disk := change.new_realm.onDiskPath
  previous := change.old_realm
  current := some change.new_realm
  changesets := cs.map marshalChangeset

/-- The marshalling body of
realm_server_global_notifier_notification_get_changes (lines 166-209):
realize the changes (line 169), marshal, and return the structure that is
handed to s_calculation_complete_callback, together with the notification
state after the lazy computation. -/
def notification_get_changes (change : ChangeNotification) :
    MarshaledChangeNotification × ChangeNotification :=
  match get_changes change with
  | (cs, after) => (marshalNotification change cs, after)

/-! ## Drain loop (Callback::realm_changed, lines 97-102) -/

/-- One invocation of the s_enqueue_calculation_callback function pointer:
the popped notification's realm_path and the notification itself (the C++
hands over a heap copy of it). -/
structure EnqueueCall where
  path : String
  popped : ChangeNotification
  deriving DecidableEq

/-- Callback::realm_changed embedded from lines 97-102.  The core's ready
queue (next_changed_realm, modelled from the spec as a FIFO list in commit
order) is drained one notification at a time; each pop produces exactly one
enqueue-callback invocation, in pop order. -/
def realm_changed : List ChangeNotification → List EnqueueCall
  | [] => []
  | change :: rest => { path := change.realm_path, popped := change } :: realm_changed rest

/-! ## Error boundary (handle_errors uses, lines 126, 150, 166) -/

/-- The error out-parameter NativeException::Marshallable: an error code
and a human-readable message. -/
structure NativeException where
  code : Nat
  message : String
  deriving DecidableEq

/-- Modelled from the spec: handle_errors (error_handling.hpp, not under
src/) runs the body, catches any exception, and converts it into the
structured out-parameter; on success the out-parameter reports no error.
No exception ever propagates past it. -/
def handle_errors {α : Type} (body : Except NativeException α) :
    Option α × Option NativeException :=
  match body with
  | .ok a => (some a, none)
  | .error e => (none, some e)

/-- The body of realm_server_global_notifier_notification_get_changes:
change.get_changes() may throw (the outcome of the core call is the
coreGetChanges argument); on success the marshalled structure is delivered
to s_calculation_complete_callback - the returned list is the list of
calculation-complete invocations the body performs. -/
def get_changes_body (change : ChangeNotification)
    (coreGetChanges : Except NativeException (List (String × CollectionChangeSet))) :
    Except NativeException (List MarshaledChangeNotification) :=
  match coreGetChanges with
  | .error e => .error e
  | .ok cs => .ok [marshalNotification change cs]

/-- realm_server_global_notifier_notification_get_changes (lines 162-211)
at the boundary: the body runs under handle_errors; returns the
calculation-complete invocations made and the error out-parameter. -/
def notification_get_changes_ffi (change : ChangeNotification)
    (coreGetChanges : Except NativeException (List (String × CollectionChangeSet))) :
    List MarshaledChangeNotification × Option NativeException :=
  match handle_errors (get_changes_body change coreGetChanges) with
  | (some calls, ex) => (calls, ex)
  | (none, ex) => ([], ex)

/-- realm_server_create_global_notifier (lines 121-145) at the boundary:
the body (configuration parsing, notifier construction and start - the
coreCreate argument, a handle on success) runs under handle_errors; returns
the handle and the error out-parameter. -/
def create_global_notifier_ffi (coreCreate : Except NativeException Nat) :
    Option Nat × Option NativeException :=
  handle_errors coreCreate

/-! ## Explicit destroy operations (lines 157-160 and 213-216) -/

/-- realm_server_global_notifier_destroy (lines 157-160): a plain delete of
the incoming handle pointer.  The heap of live notifier handles is a list
of addresses; C++ delete of a null pointer is a no-op, delete of a live
pointer releases exactly that allocation. -/
def realm_server_global_notifier_destroy (handle : Option Nat) (heap : List Nat) : List Nat :=
  match handle with
  | none => heap
  | some p => heap.erase p

/-- realm_server_global_notifier_notification_destroy (lines 213-216):
a plain delete of the incoming notification-handle pointer, same null-safe
semantics. -/
def realm_server_global_notifier_notification_destroy (handle : Option Nat)
    (heap : List Nat) : List Nat :=
  match handle with
  | none => heap
  | some p => heap.erase p

/-! ## Concrete sample data for witnesses -/

/-- A sample snapshot with one Person collection of two rows. -/
def sampleSnapshot : Snapshot where
  onDiskPath := "/server/realms/42.realm"
  version := 3
  tables := [("Person", [{ key := 1, content := 10 }, { key := 2, content := 20 }])]

/-- A sample sparse change set, whose deletions field is the spec's
round-trip example position multiset with a duplicate. -/
def sampleChangeSet : CollectionChangeSet where
  deletions := [2, 5, 5, 7]
  insertions := []
  modifications := [1, 1]
  modifications_new := [0]

/-- A first-version sample notification with a realized change-set cache. -/
def sampleNotification : ChangeNotification where
  realm_path := "/42"
  old_realm := none
  new_realm := sampleSnapshot
  changes_cache := some [("Person", sampleChangeSet)]

/-- The sample changeset after marshalling. -/
def sampleMarshaled : MarshaledChangeset := marshalChangeset ("Person", sampleChangeSet)

/-- A sample notification whose diff is not yet realized. -/
def sampleLive : ChangeNotification where
  realm_path := "/42"
  old_realm := some sampleSnapshot
  new_realm := sampleSnapshot
  changes_cache := none

/-- Same snapshot pair as sampleLive under a different logical path, diff
not yet realized. -/
def sampleLiveRenamed : ChangeNotification where
  realm_path := "/43"
  old_realm := some sampleSnapshot
  new_realm := sampleSnapshot
  changes_cache := none

/-- A sample structured error. -/
def sampleException : NativeException where
  code := 5
  message := "network unreachable"

/-! ## Helper lemmas -/

theorem mem_insertPos {y n : Nat} {l : List Nat} (h : y ∈ insertPos n l) : y = n ∨ y ∈ l := by
  induction l with
  | nil => simpa [insertPos] using h
  | cons x xs ih =>
    simp only [insertPos] at h
    by_cases h1 : n < x
    · rw [if_pos h1] at h
      rcases List.mem_cons.mp h with h | h
      · exact Or.inl h
      · exact Or.inr h
    · rw [if_neg h1] at h
      by_cases h2 : n = x
      · rw [if_pos h2] at h
        exact Or.inr h
      · rw [if_neg h2] at h
        rcases List.mem_cons.mp h with h | h
        · exact Or.inr (List.mem_cons.mpr (Or.inl h))
        · rcases ih h with h | h
          · exact Or.inl h
          · exact Or.inr (List.mem_cons.mpr (Or.inr h))

theorem pairwise_insertPos {n : Nat} {l : List Nat} (h : List.Pairwise (· < ·) l) :
    List.Pairwise (· < ·) (insertPos n l) := by
  induction l with
  | nil => simp [insertPos]
  | cons x xs ih =>
    rcases List.pairwise_cons.mp h with ⟨hx, hxs⟩
    simp only [insertPos]
    by_cases h1 : n < x
    · rw [if_pos h1]
      refine List.pairwise_cons.mpr ⟨fun y hy => ?_, h⟩
      rcases List.mem_cons.mp hy with rfl | hy
      · exact h1
      · exact lt_trans h1 (hx y hy)
    · rw [if_neg h1]
      by_cases h2 : n = x
      · rw [if_pos h2]
        exact h
      · rw [if_neg h2]
        refine List.pairwise_cons.mpr ⟨fun y hy => ?_, ih hxs⟩
        rcases mem_insertPos hy with rfl | hy
        · omega
        · exact hx y hy

theorem pairwise_flattenIndexDiff (d : List Nat) :
    List.Pairwise (· < ·) (flattenIndexDiff d) := by
  induction d with
  | nil => simp [flattenIndexDiff]
  | cons x xs ih => exact pairwise_insertPos ih

theorem coreValid_shape : ∀ {es : List CoreEvent}, coreValid es = true →
    es = [] ∨ (∃ k, es = [CoreEvent.error k]) ∨ es = [CoreEvent.downloadComplete] ∨
      ∃ k, es = [CoreEvent.downloadComplete, CoreEvent.error k]
  | [], _ => Or.inl rfl
  | [.error k], _ => Or.inr (Or.inl ⟨k, rfl⟩)
  | [.downloadComplete], _ => Or.inr (Or.inr (Or.inl rfl))
  | .downloadComplete :: .downloadComplete :: rest, h => by
    simp [coreValid, noDownload] at h
  | .downloadComplete :: .error k :: rest, h => by
    rcases rest with _ | ⟨e2, rest2⟩
    · exact Or.inr (Or.inr (Or.inr ⟨k, rfl⟩))
    · simp [coreValid, noDownload] at h
  | .error _ :: _ :: _, h => by simp [coreValid] at h

/-! ## Claim theorems -/

/-- Claim C3 counterexample: as stated, the claim says creating a notifier
does not itself begin actively listening.  The exported creation operation
realm_server_create_global_notifier (line 142) calls notifier's start()
itself, so the start action is in the creation trace. -/
theorem spec_C3_counterexample :
    CreateAction.startNotifier ∈ realm_server_create_global_notifier_actions := by
  decide

/-- Claim C3, amended: the exported creation operation invokes start()
exactly once itself, after constructing the Callback bridge and the
notifier (so the callback object is registered before listening begins) and
before returning the handle; the consumer registers its callbacks through
the separate global install before creation, not between create and start. -/
theorem spec_C3 :
    realm_server_create_global_notifier_actions.count CreateAction.startNotifier = 1 ∧
    realm_server_create_global_notifier_actions.indexOf CreateAction.constructCallback <
      realm_server_create_global_notifier_actions.indexOf CreateAction.startNotifier ∧
    realm_server_create_global_notifier_actions.indexOf CreateAction.constructNotifier <
      realm_server_create_global_notifier_actions.indexOf CreateAction.startNotifier ∧
    realm_server_create_global_notifier_actions.indexOf CreateAction.startNotifier <
      realm_server_create_global_notifier_actions.indexOf CreateAction.returnHandle := by
  decide

/-- Claim C4: for every store the engine reports, realm_available applies
the consumer's admission predicate to the store's logical (virtual) path
and returns the predicate's result unchanged; the physical on-disk path has
no influence on the decision. -/
theorem spec_C4 (f : String → Bool) (p q v : String) :
    realm_available f p v = f v ∧ realm_available f p v = realm_available f q v :=
  ⟨rfl, rfl⟩

/-- Claim C5: in every structure delivered by the calculation-complete
callback, the previous-snapshot reference is null exactly when the
notification has no previous snapshot (first observed version), and the
current-snapshot reference is never null. -/
theorem spec_C5 (change : ChangeNotification) :
    ((notification_get_changes change).1.previous = none ↔ change.old_realm = none) ∧
    (notification_get_changes change).1.current ≠ none := by
  cases hc : change.changes_cache <;>
    simp [notification_get_changes, get_changes, hc, marshalNotification]

/-- Claim C5 witness: the theorem instantiated at the concrete
first-version sample notification. -/
theorem spec_C5_witness :
    ((notification_get_changes sampleNotification).1.previous = none ↔
      sampleNotification.old_realm = none) ∧
    (notification_get_changes sampleNotification).1.current ≠ none :=
  spec_C5 sampleNotification

/-- Claim C6: in every delivered changeset, each of the four flattened
index arrays is strictly ascending (hence duplicate-free), and flattening
the sparse index multiset 2, 5, 5, 7 (with the duplicate) yields exactly
the sequence 2, 5, 7. -/
theorem spec_C6 :
    (∀ (change : ChangeNotification) (mc : MarshaledChangeset),
      mc ∈ (notification_get_changes change).1.changesets →
        List.Pairwise (· < ·) mc.deletions ∧
        List.Pairwise (· < ·) mc.insertions ∧
        List.Pairwise (· < ·) mc.previous_modifications ∧
        List.Pairwise (· < ·) mc.current_modifications) ∧
    flattenIndexDiff [2, 5, 5, 7] = [2, 5, 7] := by
  constructor
  · intro change mc hmem
    have hsets : (notification_get_changes change).1.changesets =
        ((get_changes change).1).map marshalChangeset := by
      cases hc : change.changes_cache <;>
        simp [notification_get_changes, get_changes, hc, marshalNotification]
    rw [hsets] at hmem
    rcases List.mem_map.mp hmem with ⟨c, _, rfl⟩
    exact ⟨pairwise_flattenIndexDiff _, pairwise_flattenIndexDiff _,
      pairwise_flattenIndexDiff _, pairwise_flattenIndexDiff _⟩
  · decide

/-- Claim C6 witness: the theorem applied to the concrete sample
notification and its one marshalled changeset. -/
theorem spec_C6_witness :
    List.Pairwise (· < ·) sampleMarshaled.deletions ∧
    List.Pairwise (· < ·) sampleMarshaled.insertions ∧
    List.Pairwise (· < ·) sampleMarshaled.previous_modifications ∧
    List.Pairwise (· < ·) sampleMarshaled.current_modifications :=
  spec_C6.1 sampleNotification sampleMarshaled (by decide)

/-- Claim C7: diff computation is side-effect-free and idempotent - running
the get-changes marshalling a second time on the notification state left by
the first run yields the same delivered structure and the same state, and
the realized changes depend only on the (previous, current) snapshot pair. -/
theorem spec_C7 (n : ChangeNotification) :
    (notification_get_changes ((notification_get_changes n).2)).1 =
      (notification_get_changes n).1 ∧
    (notification_get_changes ((notification_get_changes n).2)).2 =
      (notification_get_changes n).2 ∧
    (∀ m : ChangeNotification, n.old_realm = m.old_realm → n.new_realm = m.new_realm →
      n.changes_cache = none → m.changes_cache = none →
      (get_changes n).1 = (get_changes m).1) := by
  refine ⟨?_, ?_, ?_⟩
  · cases hc : n.changes_cache <;>
      simp [notification_get_changes, get_changes, hc, marshalNotification]
  · cases hc : n.changes_cache <;>
      simp [notification_get_changes, get_changes, hc]
  · intro m hold hnew hn hm
    simp [get_changes, hn, hm, hold, hnew]

/-- Claim C7 witness: the theorem applied to two concrete unrealized
notifications over the same snapshot pair. -/
theorem spec_C7_witness :
    (get_changes sampleLive).1 = (get_changes sampleLiveRenamed).1 :=
  (spec_C7 sampleLive).2.2 sampleLiveRenamed rfl rfl rfl rfl

/-- Claim C8: a drain pass of Callback::realm_changed pops notifications
from the ready queue one at a time and invokes the enqueue-for-calculation
callback exactly once per popped notification, in exactly the pop order,
passing each notification's logical path. -/
theorem spec_C8 (q : List ChangeNotification) :
    (realm_changed q).length = q.length ∧
    (realm_changed q).map (fun c => c.popped) = q ∧
    (realm_changed q).map (fun c => c.path) = q.map (fun n => n.realm_path) := by
  induction q with
  | nil => exact ⟨rfl, rfl, rfl⟩
  | cons c rest ih =>
    refine ⟨?_, ?_, ?_⟩ <;> simp [realm_changed, ih.1, ih.2.1, ih.2.2]

/-- Claim C9: every exception thrown during notifier creation or during
change marshalling is caught at the boundary and converted into a
structured error result, never propagating as a raw fault; on a get-changes
failure the calculation-complete callback is not invoked, while on success
it is invoked once with the marshalled structure and the out-parameter
reports no error. -/
theorem spec_C9 (change : ChangeNotification)
    (coreGetChanges : Except NativeException (List (String × CollectionChangeSet)))
    (coreCreate : Except NativeException Nat) :
    (∀ e, coreGetChanges = Except.error e →
      notification_get_changes_ffi change coreGetChanges = ([], some e)) ∧
    (∀ cs, coreGetChanges = Except.ok cs →
      notification_get_changes_ffi change coreGetChanges =
        ([marshalNotification change cs], none)) ∧
    (∀ e, coreCreate = Except.error e →
      create_global_notifier_ffi coreCreate = (none, some e)) ∧
    (∀ h, coreCreate = Except.ok h →
      create_global_notifier_ffi coreCreate = (some h, none)) := by
  refine ⟨?_, ?_, ?_, ?_⟩ <;> intro x hx <;> subst hx <;>
    simp [notification_get_changes_ffi, get_changes_body, handle_errors,
      create_global_notifier_ffi]

/-- Claim C9 witness: the theorem applied at a concrete failing get-changes
call and a concrete failing creation call. -/
theorem spec_C9_witness :
    notification_get_changes_ffi sampleLive (Except.error sampleException) =
      ([], some sampleException) ∧
    create_global_notifier_ffi (Except.error sampleException) =
      (none, some sampleException) :=
  ⟨(spec_C9 sampleLive (Except.error sampleException) (Except.ok 0)).1
      sampleException rfl,
    (spec_C9 sampleLive (Except.error sampleException)
      (Except.error sampleException)).2.2.1 sampleException rfl⟩

/-- Claim C10: the explicit destroy operations are null-safe - destroying
with a null handle leaves the heap of live handles untouched - and
destroying a live handle releases exactly that one handle: the heap shrinks
by one, the destroyed handle is gone, and every other handle survives. -/
theorem spec_C10 (heap : List Nat) (p : Nat) :
    realm_server_global_notifier_destroy none heap = heap ∧
    realm_server_global_notifier_notification_destroy none heap = heap ∧
    (heap.Nodup → p ∈ heap →
      (realm_server_global_notifier_destroy (some p) heap).length + 1 = heap.length ∧
      p ∉ realm_server_global_notifier_destroy (some p) heap ∧
      (∀ q, q ≠ p → (q ∈ realm_server_global_notifier_destroy (some p) heap ↔ q ∈ heap)) ∧
      (realm_server_global_notifier_notification_destroy (some p) heap).length + 1 =
        heap.length ∧
      p ∉ realm_server_global_notifier_notification_destroy (some p) heap ∧
      (∀ q, q ≠ p →
        (q ∈ realm_server_global_notifier_notification_destroy (some p) heap ↔ q ∈ heap))) := by
  refine ⟨rfl, rfl, fun hnd hmem => ?_⟩
  have hlen := List.length_erase_of_mem hmem
  have hpos : 0 < heap.length := List.length_pos_of_mem hmem
  refine ⟨?_, ?_, ?_, ?_, ?_, ?_⟩
  · simp only [realm_server_global_notifier_destroy]
    omega
  · simpa [realm_server_global_notifier_destroy] using hnd.not_mem_erase
  · intro q hq
    simpa [realm_server_global_notifier_destroy] using List.mem_erase_of_ne hq
  · simp only [realm_server_global_notifier_notification_destroy]
    omega
  · simpa [realm_server_global_notifier_notification_destroy] using hnd.not_mem_erase
  · intro q hq
    simpa [realm_server_global_notifier_notification_destroy] using List.mem_erase_of_ne hq

/-- Claim C10 witness: the theorem applied at a concrete three-handle heap
and the middle handle. -/
theorem spec_C10_witness :
    realm_server_global_notifier_destroy none [1, 2, 3] = [1, 2, 3] ∧
    (realm_server_global_notifier_destroy (some 2) [1, 2, 3]).length + 1 =
      ([1, 2, 3] : List Nat).length ∧
    2 ∉ realm_server_global_notifier_destroy (some 2) [1, 2, 3] :=
  ⟨(spec_C10 [1, 2, 3] 2).1,
    ((spec_C10 [1, 2, 3] 2).2.2 (by decide) (by decide)).1,
    ((spec_C10 [1, 2, 3] 2).2.2 (by decide) (by decide)).2.1⟩

/-- Claim C1: over any event sequence the core may deliver (spec section
4.1 state machine), the Callback invokes the lifecycle start/error callback
at most once in total; it is invoked exactly once with code 0 when the
first successful synchronization completes, and exactly once with the
system error's code and message when a system error arrives before the
first successful synchronization; no run invokes it a second time. -/
theorem spec_C1 (es : List CoreEvent) (h : coreValid es = true) :
    lifecycleCount (runEvents false es) ≤ 1 ∧
    (CoreEvent.downloadComplete ∈ es →
      lifecycleCount (runEvents false es) = 1 ∧
      (runEvents false es).filter isLifecycle = [Emission.start 0 none]) ∧
    (∀ c m, CoreEvent.error (ErrorKind.systemError c m) ∈ es →
      CoreEvent.downloadComplete ∉ es →
      runEvents false es = [Emission.start c (some m)]) := by
  rcases coreValid_shape h with rfl | ⟨k, rfl⟩ | rfl | ⟨k, rfl⟩
  · refine ⟨by decide, by intro h2; simp at h2, by intro c m h2; simp at h2⟩
  · cases k with
    | systemError c m =>
      refine ⟨?_, ?_, ?_⟩
      · simp [runEvents, callbackStep, lifecycleCount, isLifecycle]
      · intro h2
        simp at h2
      · intro c2 m2 h2 _
        simp at h2
        rw [h2.1, h2.2]
        simp [runEvents, callbackStep]
    | otherException w =>
      refine ⟨?_, ?_, ?_⟩
      · simp [runEvents, callbackStep, lifecycleCount, isLifecycle]
      · intro h2
        simp at h2
      · intro c2 m2 h2 _
        simp at h2
  · refine ⟨?_, ?_, ?_⟩
    · decide
    · intro _
      exact ⟨by decide, by decide⟩
    · intro c2 m2 h2 _
      simp at h2
  · cases k with
    | systemError c m =>
      refine ⟨?_, ?_, ?_⟩
      · simp [runEvents, callbackStep, lifecycleCount, isLifecycle]
      · intro _
        refine ⟨?_, ?_⟩ <;>
          simp [runEvents, callbackStep, lifecycleCount, isLifecycle]
      · intro c2 m2 _ h3
        exact absurd (by simp) h3
    | otherException w =>
      refine ⟨?_, ?_, ?_⟩
      · simp [runEvents, callbackStep, lifecycleCount, isLifecycle]
      · intro _
        refine ⟨?_, ?_⟩ <;>
          simp [runEvents, callbackStep, lifecycleCount, isLifecycle]
      · intro c2 m2 h2 _
        simp at h2

/-- Claim C1 witness: the theorem applied to the concrete valid trace whose
one event is the completion of the first download - the single lifecycle
invocation carries error code 0 and a null message. -/
theorem spec_C1_witness :
    lifecycleCount (runEvents false [CoreEvent.downloadComplete]) = 1 ∧
    (runEvents false [CoreEvent.downloadComplete]).filter isLifecycle =
      [Emission.start 0 none] :=
  (spec_C1 [CoreEvent.downloadComplete] (by decide)).2.1 (by decide)

/-- Claim C2: once the first successful synchronization has completed
(download_complete set m_did_download), a reported error terminates the
process: the full emission stream is the original code-0 lifecycle call
followed by the terminate call, with no lifecycle emission for the error
and no events processed afterwards, whatever would have followed. -/
theorem spec_C2 (k : ErrorKind) (rest : List CoreEvent) :
    runEvents false (CoreEvent.downloadComplete :: CoreEvent.error k :: rest) =
      [Emission.start 0 none,
        Emission.terminate ("Unhandled GlobalNotifier runtime error")] ∧
    lifecycleCount (runEvents true (CoreEvent.error k :: rest)) = 0 := by
  constructor
  · simp [runEvents, callbackStep]
  · simp [runEvents, callbackStep, lifecycleCount, isLifecycle]
